import Mathlib

/-!
Shallow embedding of the two scripts of the repository
`openclaw_WIFI_DEBUGGER`:

* `src/ssh-helper.py` — a command runner: parse argv, open one SSH session
  with an accept-any-host-key policy, run one remote command, drain its
  stdout and stderr, read its exit status, close, relay streams and exit
  status to the caller; three `except` clauses map library exceptions to
  exit code 255 with a diagnostic line on stderr.
* `src/add_key_nvram.py` — a one-shot key-append script: read
  `nvram get sshd_authkeys`, and when the public key is not a substring of
  that value, append it to `/jffs/.ssh/authorized_keys` and
  `/etc/dropbear/authorized_keys`, then print a success message.

The effect of each library call (connect, exec, read, decode) is supplied
by an oracle, so a run of the embedded program is a pure function of the
oracle and of argv.  Machine-visible behaviour is collected in a result
record: process exit code, text printed to stdout and to stderr, and a
trace of the session-level operations in the order they were performed.
-/

/-- Dynamic type of the Python exceptions that the helper's `try` block can
observe: `paramiko.AuthenticationException`, `paramiko.SSHException` (with
its message), and any other `Exception` (with its message) — the last kind
includes `UnicodeDecodeError` raised by `.decode()` and socket errors. -/
inductive PyExc where
  | authException : PyExc
  | sshException : String → PyExc
  | otherException : String → PyExc
deriving DecidableEq, Repr

/-- Policy of `paramiko.SSHClient` for a host key that is not in
`known_hosts`: `RejectPolicy` (the default) or `AutoAddPolicy`. -/
inductive HostKeyPolicy where
  | reject : HostKeyPolicy
  | autoAdd : HostKeyPolicy
deriving DecidableEq, Repr

/-- The one piece of `paramiko.SSHClient` state the scripts set: the
missing-host-key policy, whose paramiko default is `RejectPolicy`. -/
structure SSHClient where
  missingHostKeyPolicy : HostKeyPolicy := HostKeyPolicy.reject
deriving DecidableEq, Repr

/-- Outcome of `client.connect` given the client's missing-host-key policy,
whether the server's key is already in `known_hosts`, and the outcome
`base` that the network/credentials alone would produce.  Under
`RejectPolicy` an unknown host key raises `SSHException`; under
`AutoAddPolicy` the key is accepted and only `base` matters. -/
def tryConnect (policy : HostKeyPolicy) (hostKeyKnown : Bool)
    (base : Except PyExc Unit) : Except PyExc Unit :=
  match policy with
  | HostKeyPolicy.autoAdd => base
  | HostKeyPolicy.reject =>
      if hostKeyKnown then base
      else Except.error (PyExc.sshException "Server not found in known_hosts")

/-- Oracle for the library calls of `ssh-helper.py`.  `connect` is a
function of host, user, password and timeout; the remaining fields are
functions of the remote command string.  `readOut`/`readErr` give the
result of `stdout.read().decode()` / `stderr.read().decode()` — an
exception (e.g. `UnicodeDecodeError`) or the decoded text. -/
structure SSHOracle where
  hostKeyKnown : Bool
  connect : String → String → String → Nat → Except PyExc Unit
  execCmd : String → Except PyExc Unit
  readOut : String → Except PyExc String
  readErr : String → Except PyExc String
  exitStatus : String → Nat

/-- Library-call outcomes of one invocation, after the oracle has been
applied to the actual arguments taken from argv. -/
structure SSHWorld where
  hostKeyKnown : Bool
  connect : Except PyExc Unit
  execCmd : Except PyExc Unit
  readOut : Except PyExc String
  readErr : Except PyExc String
  exitStatus : Nat

/-- Instantiation of the oracle at the host, user, password and command
taken from argv; `ssh-helper.py` line 19 passes `timeout=15`. -/
def resolveWorld (o : SSHOracle) (host user password command : String) :
    SSHWorld :=
  { hostKeyKnown := o.hostKeyKnown
    connect := o.connect host user password 15
    execCmd := o.execCmd command
    readOut := o.readOut command
    readErr := o.readErr command
    exitStatus := o.exitStatus command }

/-- Session-level operations of the helper, recorded in execution order. -/
inductive Event where
  | createClient : Event
  | setPolicy : HostKeyPolicy → Event
  | connectAttempt : Event
  | execCommand : Event
  | readStdout : Event
  | readStderr : Event
  | readExitStatus : Event
  | closeSession : Event
deriving DecidableEq, Repr

/-- Machine-visible behaviour of one invocation of the command runner:
process exit code, the text it printed to its own stdout and stderr, and
the trace of session operations. -/
structure RunResult where
  exitCode : Nat
  stdoutText : String
  stderrText : String
  trace : List Event
deriving DecidableEq, Repr

/-- Diagnostic line each `except` clause of `ssh-helper.py` (lines 33-41)
prints to stderr (`print` appends a newline). -/
def excMessage : PyExc → String
  | PyExc.authException => "Authentication failed\n"
  | PyExc.sshException m => "SSH error: " ++ m ++ "\n"
  | PyExc.otherException m => "Connection error: " ++ m ++ "\n"

/-- Behaviour of the three `except` clauses: print the diagnostic to
stderr and `sys.exit(255)`; nothing was printed to stdout, and the trace
is whatever had happened inside the `try` block up to the raise. -/
def handleExc (e : PyExc) (tr : List Event) : RunResult :=
  { exitCode := 255, stdoutText := "", stderrText := excMessage e, trace := tr }

/-- Body of the `try` block of `ssh-helper.py` (lines 16-32): create the
client, set `AutoAddPolicy`, connect, `exec_command`, read stdout, read
stderr, `recv_exit_status`, close, print `out` verbatim, print `err`
verbatim only when non-empty, `sys.exit(exit_code)`. -/
def runBody (w : SSHWorld) : RunResult :=
  let client : SSHClient := {}
  let client := { client with missingHostKeyPolicy := HostKeyPolicy.autoAdd }
  let tr := [Event.createClient, Event.setPolicy client.missingHostKeyPolicy,
             Event.connectAttempt]
  match tryConnect client.missingHostKeyPolicy w.hostKeyKnown w.connect with
  | Except.error e => handleExc e tr
  | Except.ok _ =>
    let tr := tr ++ [Event.execCommand]
    match w.execCmd with
    | Except.error e => handleExc e tr
    | Except.ok _ =>
      let tr := tr ++ [Event.readStdout]
      match w.readOut with
      | Except.error e => handleExc e tr
      | Except.ok outS =>
        let tr := tr ++ [Event.readStderr]
        match w.readErr with
        | Except.error e => handleExc e tr
        | Except.ok errS =>
          let tr := tr ++ [Event.readExitStatus, Event.closeSession]
          { exitCode := w.exitStatus
            stdoutText := outS
            stderrText := if errS = "" then "" else errS
            trace := tr }

/-- Usage line printed to stderr (with a newline) when argv is short. -/
def usageText : String :=
  "Usage: ssh-helper.py <host> <user> <password> <command>\n"

/-- The function `main` of `ssh-helper.py`: `argv` is the full `sys.argv`,
program name included.  With `len(sys.argv) < 5` it prints the usage line
to stderr and exits 1 before anything else; otherwise it takes
`argv[1..4]` as host, user, password and command and runs the body. -/
def runMain (o : SSHOracle) (argv : List String) : RunResult :=
  if argv.length < 5 then
    { exitCode := 1, stdoutText := "", stderrText := usageText, trace := [] }
  else
    runBody (resolveWorld o (argv.getD 1 "") (argv.getD 2 "")
      (argv.getD 3 "") (argv.getD 4 ""))

/-- First exception raised inside the `try` block, if any, in program
order: connect, exec, stdout read+decode, stderr read+decode. -/
def firstExc (w : SSHWorld) : Option PyExc :=
  match tryConnect HostKeyPolicy.autoAdd w.hostKeyKnown w.connect with
  | Except.error e => some e
  | Except.ok _ =>
    match w.execCmd with
    | Except.error e => some e
    | Except.ok _ =>
      match w.readOut with
      | Except.error e => some e
      | Except.ok _ =>
        match w.readErr with
        | Except.error e => some e
        | Except.ok _ => none

/-- Trace of a run in which no library call raised. -/
def successTrace : List Event :=
  [Event.createClient, Event.setPolicy HostKeyPolicy.autoAdd,
   Event.connectAttempt, Event.execCommand, Event.readStdout,
   Event.readStderr, Event.readExitStatus, Event.closeSession]

/-- Python's substring test `needle in hay` on the character lists of the
two strings. -/
def pyIn (needle : List Char) : List Char → Bool
  | [] => needle.isEmpty
  | c :: t => needle.isPrefixOf (c :: t) || pyIn needle t

/-- Python's `str.strip()` on a character list: drop leading and trailing
whitespace. -/
def pyStrip (l : List Char) : List Char :=
  ((l.dropWhile Char.isWhitespace).reverse.dropWhile Char.isWhitespace).reverse

/-- State of the router that `add_key_nvram.py` talks to: the nvram
variable `sshd_authkeys`, the two authorized-keys files (content plus
whether their directory exists), and whether each filesystem accepts
writes.  Text is modelled as character lists. -/
structure RouterState where
  nvramAuthkeys : List Char
  jffsSshDirExists : Bool
  jffsWritable : Bool
  jffsAuthorizedKeys : List Char
  dropbearDirExists : Bool
  dropbearWritable : Bool
  dropbearAuthorizedKeys : List Char
deriving DecidableEq, Repr

/-- Remote effect of `echo "k" >> /jffs/.ssh/authorized_keys`: appends
`k` and a newline when the directory exists and the filesystem is
writable, otherwise fails without effect.  Returns the new state and the
shell success flag. -/
def echoJffs (k : String) (s : RouterState) : RouterState × Bool :=
  if s.jffsSshDirExists && s.jffsWritable then
    ({ s with jffsAuthorizedKeys := s.jffsAuthorizedKeys ++ k.data ++ ['\n'] },
     true)
  else (s, false)

/-- Remote effect of `mkdir -p /jffs/.ssh`: succeeds without effect when
the directory already exists, creates it when the filesystem is writable,
and fails otherwise. -/
def mkdirJffsSsh (s : RouterState) : RouterState × Bool :=
  if s.jffsSshDirExists then (s, true)
  else if s.jffsWritable then ({ s with jffsSshDirExists := true }, true)
  else (s, false)

/-- Remote effect of the first append command of `add_key_nvram.py`
(line 14): `echo "k" >> /jffs/.ssh/authorized_keys 2>/dev/null || mkdir -p
/jffs/.ssh && echo "k" >> /jffs/.ssh/authorized_keys`.  In POSIX shell
`A || B && C` groups as `(A || B) && C`, so when the first echo succeeds
the second echo still runs and the key is appended twice. -/
def jffsAppendCommand (k : String) (s : RouterState) : RouterState × Bool :=
  let r1 := echoJffs k s
  let r2 := if r1.2 then (r1.1, true) else mkdirJffsSsh r1.1
  if r2.2 then echoJffs k r2.1 else (r2.1, false)

/-- Remote effect of the second append command (line 19): `echo "k" >>
/etc/dropbear/authorized_keys 2>/dev/null`. -/
def dropbearAppendCommand (k : String) (s : RouterState) : RouterState × Bool :=
  if s.dropbearDirExists && s.dropbearWritable then
    ({ s with
        dropbearAuthorizedKeys := s.dropbearAuthorizedKeys ++ k.data ++ ['\n'] },
     true)
  else (s, false)

/-- Message printed by the skip branch of `add_key_nvram.py` (line 12). -/
def alreadyMsg : String := "Key already in nvram"

/-- Message printed by the append branch of `add_key_nvram.py` (line 22). -/
def addedMsg : String := "Key added to /jffs/.ssh/authorized_keys and /etc/dropbear/"

/-- Body of `add_key_nvram.py` after the connect (lines 8-22): read
`nvram get sshd_authkeys`, strip it, and when `pubkey` is a substring of
the result print the skip message and mutate nothing; otherwise run the
two append commands — draining but never inspecting their streams, and
never reading their exit statuses — and print the success message.
Returns the final router state and the lines printed. -/
def addKeyBody (pubkey : String) (s : RouterState) : RouterState × List String :=
  let current := pyStrip s.nvramAuthkeys
  if pyIn pubkey.data current then (s, [alreadyMsg])
  else
    let r1 := jffsAppendCommand pubkey s
    let r2 := dropbearAppendCommand pubkey r1.1
    (r2.1, [addedMsg])

/-- The whole of `add_key_nvram.py`: create a client, set `AutoAddPolicy`,
connect (an exception here is unhandled and aborts the script before the
body, skipping the final `c.close()`), then run the body. -/
def addKeyRun (hostKeyKnown : Bool) (connectBase : Except PyExc Unit)
    (pubkey : String) (s : RouterState) :
    Except PyExc (RouterState × List String) :=
  let client : SSHClient := {}
  let client := { client with missingHostKeyPolicy := HostKeyPolicy.autoAdd }
  match tryConnect client.missingHostKeyPolicy hostKeyKnown connectBase with
  | Except.error e => Except.error e
  | Except.ok _ => Except.ok (addKeyBody pubkey s)

/-- Concrete oracle: every library call succeeds, the remote command
writes `hello\n` to stdout and `oops\n` to stderr and exits 7. -/
def oAllOk : SSHOracle :=
  { hostKeyKnown := true
    connect := fun _ _ _ _ => Except.ok ()
    execCmd := fun _ => Except.ok ()
    readOut := fun _ => Except.ok "hello\n"
    readErr := fun _ => Except.ok "oops\n"
    exitStatus := fun _ => 7 }

/-- Concrete oracle: the credentials are rejected at connect time. -/
def oAuthFail : SSHOracle :=
  { hostKeyKnown := true
    connect := fun _ _ _ _ => Except.error PyExc.authException
    execCmd := fun _ => Except.ok ()
    readOut := fun _ => Except.ok ""
    readErr := fun _ => Except.ok ""
    exitStatus := fun _ => 0 }

/-- Concrete oracle: connect and exec succeed, the remote command exits 0,
but its stdout is not valid UTF-8, so `stdout.read().decode()` raises
`UnicodeDecodeError`. -/
def oDecodeFail : SSHOracle :=
  { hostKeyKnown := true
    connect := fun _ _ _ _ => Except.ok ()
    execCmd := fun _ => Except.ok ()
    readOut := fun _ =>
      Except.error (PyExc.otherException "invalid continuation byte")
    readErr := fun _ => Except.ok ""
    exitStatus := fun _ => 0 }

/-- Concrete argv with exactly the program name and four arguments. -/
def argvFive : List String :=
  ["ssh-helper.py", "192.168.178.3", "admin", "pw", "uname -a"]

/-- Concrete argv with too few arguments. -/
def argvShort : List String := ["ssh-helper.py", "192.168.178.3"]

/-- Concrete router state: empty nvram value, both authorized-keys
directories present and writable, both files empty. -/
def rsEmpty : RouterState :=
  { nvramAuthkeys := [], jffsSshDirExists := true, jffsWritable := true,
    jffsAuthorizedKeys := [], dropbearDirExists := true,
    dropbearWritable := true, dropbearAuthorizedKeys := [] }

/-- Concrete router state: empty nvram value and both filesystems mounted
read-only, so every remote write fails. -/
def rsReadOnly : RouterState :=
  { nvramAuthkeys := [], jffsSshDirExists := true, jffsWritable := false,
    jffsAuthorizedKeys := [], dropbearDirExists := true,
    dropbearWritable := false, dropbearAuthorizedKeys := [] }

/-- Helper: a run of `main` on an argv of the shape program name plus at
least four arguments is the body run on the oracle instantiated at the
first four arguments. -/
theorem runMain_cons (o : SSHOracle) (prog host user pw cmd : String)
    (rest : List String) :
    runMain o (prog :: host :: user :: pw :: cmd :: rest) =
      runBody (resolveWorld o host user pw cmd) := by
  have hlen : ¬ ((prog :: host :: user :: pw :: cmd :: rest).length < 5) := by
    simp only [List.length_cons]
    omega
  unfold runMain
  rw [if_neg hlen]
  rfl

/-- Helper: behaviour of the body of the `try` block when every library
call succeeds. -/
theorem runBody_success (w : SSHWorld) (outS errS : String)
    (hc : w.connect = Except.ok ()) (hx : w.execCmd = Except.ok ())
    (ho : w.readOut = Except.ok outS) (he : w.readErr = Except.ok errS) :
    runBody w =
      { exitCode := w.exitStatus, stdoutText := outS,
        stderrText := if errS = "" then "" else errS,
        trace := successTrace } := by
  unfold runBody
  simp [tryConnect, hc, hx, ho, he, successTrace]

/-- Helper: when no library call raises, `firstExc` is `none`, and then
the body returns the remote exit status and the full success trace. -/
theorem runBody_of_firstExc_none (w : SSHWorld) (h : firstExc w = none) :
    (runBody w).exitCode = w.exitStatus ∧
    (runBody w).trace = successTrace := by
  unfold firstExc at h
  simp only [tryConnect] at h
  cases hc : w.connect with
  | error e => simp [hc] at h
  | ok u =>
    cases u
    simp only [hc] at h
    cases hx : w.execCmd with
    | error e => simp [hx] at h
    | ok u =>
      cases u
      simp only [hx] at h
      cases ho : w.readOut with
      | error e => simp [ho] at h
      | ok outS =>
        simp only [ho] at h
        cases he : w.readErr with
        | error e => simp [he] at h
        | ok errS =>
          rw [runBody_success w outS errS hc hx ho he]
          exact ⟨rfl, rfl⟩

/-- Helper: when some library call raises, the body behaves as the
matching `except` clause: exit 255, nothing on stdout, the diagnostic on
stderr, and a trace that never reaches the `close` call. -/
theorem runBody_of_firstExc_some (w : SSHWorld) (e : PyExc)
    (h : firstExc w = some e) :
    (runBody w).exitCode = 255 ∧
    (runBody w).stdoutText = "" ∧
    (runBody w).stderrText = excMessage e ∧
    Event.closeSession ∉ (runBody w).trace := by
  unfold firstExc at h
  unfold runBody
  simp only [tryConnect] at h ⊢
  cases hc : w.connect with
  | error e' =>
    simp only [hc, Option.some.injEq] at h
    subst h
    simp [handleExc]
  | ok u =>
    cases u
    simp only [hc] at h ⊢
    cases hx : w.execCmd with
    | error e' =>
      simp only [hx, Option.some.injEq] at h
      subst h
      simp [handleExc]
    | ok u =>
      cases u
      simp only [hx] at h ⊢
      cases ho : w.readOut with
      | error e' =>
        simp only [ho, Option.some.injEq] at h
        subst h
        simp [handleExc]
      | ok outS =>
        simp only [ho] at h ⊢
        cases he : w.readErr with
        | error e' =>
          simp only [he, Option.some.injEq] at h
          subst h
          simp [handleExc]
        | ok errS =>
          rw [he] at h
          exact Option.noConfusion h

/-- Helper: the dropbear append command touches only the dropbear file. -/
theorem dropbearAppend_jffs (k : String) (s : RouterState) :
    (dropbearAppendCommand k s).1.jffsAuthorizedKeys = s.jffsAuthorizedKeys := by
  unfold dropbearAppendCommand
  split <;> rfl

/-- Helper: the dropbear append command leaves the nvram value unchanged. -/
theorem dropbearAppend_nvram (k : String) (s : RouterState) :
    (dropbearAppendCommand k s).1.nvramAuthkeys = s.nvramAuthkeys := by
  unfold dropbearAppendCommand
  split <;> rfl

/-- Helper: the dropbear append command leaves the jffs directory flag
unchanged. -/
theorem dropbearAppend_jffsDir (k : String) (s : RouterState) :
    (dropbearAppendCommand k s).1.jffsSshDirExists = s.jffsSshDirExists := by
  unfold dropbearAppendCommand
  split <;> rfl

/-- Helper: the dropbear append command leaves the jffs write flag
unchanged. -/
theorem dropbearAppend_jffsWritable (k : String) (s : RouterState) :
    (dropbearAppendCommand k s).1.jffsWritable = s.jffsWritable := by
  unfold dropbearAppendCommand
  split <;> rfl

/-- Helper: the jffs append command leaves the nvram value unchanged. -/
theorem jffsAppend_nvram (k : String) (s : RouterState) :
    (jffsAppendCommand k s).1.nvramAuthkeys = s.nvramAuthkeys := by
  cases hd : s.jffsSshDirExists <;> cases hw : s.jffsWritable <;>
    simp [jffsAppendCommand, echoJffs, mkdirJffsSsh, hd, hw]

/-- Helper: the jffs append command leaves the jffs write flag unchanged. -/
theorem jffsAppend_writable (k : String) (s : RouterState) :
    (jffsAppendCommand k s).1.jffsWritable = s.jffsWritable := by
  cases hd : s.jffsSshDirExists <;> cases hw : s.jffsWritable <;>
    simp [jffsAppendCommand, echoJffs, mkdirJffsSsh, hd, hw]

/-- Helper: the jffs append command never deletes the jffs directory. -/
theorem jffsAppend_dir_true (k : String) (s : RouterState)
    (hd : s.jffsSshDirExists = true) :
    (jffsAppendCommand k s).1.jffsSshDirExists = true := by
  cases hw : s.jffsWritable <;>
    simp [jffsAppendCommand, echoJffs, mkdirJffsSsh, hd, hw]

/-- Helper: when the jffs directory exists and the filesystem is writable,
the compound append command appends the key twice — in `A || B && C` the
shells groups `(A || B) && C`, so a successful first echo is followed by
the second echo. -/
theorem jffsAppend_writable_eq (k : String) (s : RouterState)
    (hd : s.jffsSshDirExists = true) (hw : s.jffsWritable = true) :
    jffsAppendCommand k s =
      ({ s with jffsAuthorizedKeys :=
          s.jffsAuthorizedKeys ++ k.data ++ ['\n'] ++ k.data ++ ['\n'] },
       true) := by
  simp [jffsAppendCommand, echoJffs, hd, hw]

/-- Helper: on a read-only jffs filesystem the compound append command
fails and leaves the state unchanged. -/
theorem jffsAppend_readonly (k : String) (s : RouterState)
    (hw : s.jffsWritable = false) :
    jffsAppendCommand k s = (s, false) := by
  cases hd : s.jffsSshDirExists <;>
    simp [jffsAppendCommand, echoJffs, mkdirJffsSsh, hd, hw]

/-- Helper: on a read-only dropbear filesystem the dropbear append fails
and leaves the state unchanged. -/
theorem dropbearAppend_readonly (k : String) (s : RouterState)
    (hw : s.dropbearWritable = false) :
    dropbearAppendCommand k s = (s, false) := by
  simp [dropbearAppendCommand, hw]

/-- Helper: when the dropbear directory exists and is writable the
dropbear append appends the key once. -/
theorem dropbearAppend_writable_eq (k : String) (s : RouterState)
    (hd : s.dropbearDirExists = true) (hw : s.dropbearWritable = true) :
    dropbearAppendCommand k s =
      ({ s with dropbearAuthorizedKeys :=
          s.dropbearAuthorizedKeys ++ k.data ++ ['\n'] }, true) := by
  simp [dropbearAppendCommand, hd, hw]

/-- Helper: the skip branch of the key-append script mutates nothing and
prints the already-present message. -/
theorem addKeyBody_skip (pk : String) (s : RouterState)
    (hyes : pyIn pk.data (pyStrip s.nvramAuthkeys) = true) :
    addKeyBody pk s = (s, [alreadyMsg]) := by
  simp [addKeyBody, hyes]

/-- Helper: the append branch always prints the success message, whatever
the remote commands did. -/
theorem addKeyBody_msg (pk : String) (s : RouterState)
    (hni : pyIn pk.data (pyStrip s.nvramAuthkeys) = false) :
    (addKeyBody pk s).2 = [addedMsg] := by
  simp [addKeyBody, hni]

/-- Helper: on the append branch the script's result is the state after
the two append commands, paired with the success message. -/
theorem addKeyBody_append_eq (pk : String) (s : RouterState)
    (hni : pyIn pk.data (pyStrip s.nvramAuthkeys) = false) :
    addKeyBody pk s =
      ((dropbearAppendCommand pk (jffsAppendCommand pk s).1).1,
       [addedMsg]) := by
  simp [addKeyBody, hni]

/-- Helper: the key-append script never writes the nvram variable that its
guard reads. -/
theorem addKeyBody_nvram (pk : String) (s : RouterState) :
    (addKeyBody pk s).1.nvramAuthkeys = s.nvramAuthkeys := by
  by_cases h : pyIn pk.data (pyStrip s.nvramAuthkeys) = true
  · simp [addKeyBody, h]
  · simp only [Bool.not_eq_true] at h
    simp [addKeyBody, h, dropbearAppend_nvram, jffsAppend_nvram]

/-- Helper: the key-append script leaves the jffs write flag unchanged. -/
theorem addKeyBody_jffsWritable (pk : String) (s : RouterState) :
    (addKeyBody pk s).1.jffsWritable = s.jffsWritable := by
  by_cases h : pyIn pk.data (pyStrip s.nvramAuthkeys) = true
  · simp [addKeyBody, h]
  · simp only [Bool.not_eq_true] at h
    simp [addKeyBody, h, dropbearAppend_jffsWritable, jffsAppend_writable]

/-- Helper: the key-append script never deletes the jffs directory. -/
theorem addKeyBody_jffsDir_true (pk : String) (s : RouterState)
    (hd : s.jffsSshDirExists = true) :
    (addKeyBody pk s).1.jffsSshDirExists = true := by
  by_cases h : pyIn pk.data (pyStrip s.nvramAuthkeys) = true
  · simp [addKeyBody, h, hd]
  · simp only [Bool.not_eq_true] at h
    simp [addKeyBody, h, dropbearAppend_jffsDir]
    exact jffsAppend_dir_true pk s hd

/-- Helper: on the append branch with a writable jffs filesystem, the jffs
authorized-keys file grows by two copies of the key. -/
theorem addKeyBody_jffs_grows (pk : String) (s : RouterState)
    (hni : pyIn pk.data (pyStrip s.nvramAuthkeys) = false)
    (hd : s.jffsSshDirExists = true) (hw : s.jffsWritable = true) :
    (addKeyBody pk s).1.jffsAuthorizedKeys =
      s.jffsAuthorizedKeys ++ pk.data ++ ['\n'] ++ pk.data ++ ['\n'] := by
  unfold addKeyBody
  rw [if_neg (by simp [hni])]
  rw [dropbearAppend_jffs, jffsAppend_writable_eq pk s hd hw]

/-- Helper: the jffs append command leaves all dropbear fields unchanged. -/
theorem jffsAppend_dropbear (k : String) (s : RouterState) :
    (jffsAppendCommand k s).1.dropbearAuthorizedKeys = s.dropbearAuthorizedKeys ∧
    (jffsAppendCommand k s).1.dropbearDirExists = s.dropbearDirExists ∧
    (jffsAppendCommand k s).1.dropbearWritable = s.dropbearWritable := by
  cases hd : s.jffsSshDirExists <;> cases hw : s.jffsWritable <;>
    simp [jffsAppendCommand, echoJffs, mkdirJffsSsh, hd, hw]

/-- Helper: the body of the runner is insensitive to whether the server's
host key was previously known. -/
theorem runBody_hostKeyKnown (w : SSHWorld) (b : Bool) :
    runBody { w with hostKeyKnown := b } = runBody w := rfl

/-- C1: when connect and execute succeed, the runner prints the captured
remote stdout verbatim to its own stdout, prints the captured remote
stderr to its own stderr exactly when it is non-empty, and exits with the
remote command's exit status as its own exit code. -/
theorem C1_relay_success (o : SSHOracle) (prog host user pw cmd : String)
    (rest : List String) (outS errS : String)
    (hc : o.connect host user pw 15 = Except.ok ())
    (hx : o.execCmd cmd = Except.ok ())
    (ho : o.readOut cmd = Except.ok outS)
    (he : o.readErr cmd = Except.ok errS) :
    (runMain o (prog :: host :: user :: pw :: cmd :: rest)).stdoutText = outS ∧
    (errS ≠ "" →
      (runMain o (prog :: host :: user :: pw :: cmd :: rest)).stderrText = errS) ∧
    (errS = "" →
      (runMain o (prog :: host :: user :: pw :: cmd :: rest)).stderrText = "") ∧
    (runMain o (prog :: host :: user :: pw :: cmd :: rest)).exitCode =
      o.exitStatus cmd := by
  rw [runMain_cons]
  rw [runBody_success (resolveWorld o host user pw cmd) outS errS hc hx ho he]
  refine ⟨rfl, ?_, ?_, rfl⟩
  · intro h
    simp [h]
  · intro h
    simp [h]

/-- Witness for C1: a remote command that writes `hello\n` to stdout and
`oops\n` to stderr and exits 7 is relayed to both destinations and the
process exits 7. -/
theorem C1_relay_success_witness :
    (runMain oAllOk argvFive).stdoutText = "hello\n" ∧
    (runMain oAllOk argvFive).stderrText = "oops\n" ∧
    (runMain oAllOk argvFive).exitCode = 7 := by
  have h := C1_relay_success oAllOk "ssh-helper.py" "192.168.178.3" "admin"
    "pw" "uname -a" [] "hello\n" "oops\n" rfl rfl rfl rfl
  exact ⟨h.1, h.2.1 (by decide), h.2.2.2⟩

/-- C2: the process exit code is the forwarded remote exit status on
success, 1 when the argument count is wrong, and 255 for each of the
three error kinds, each after its own diagnostic on stderr. -/
theorem C2_exit_code_taxonomy (o : SSHOracle) (argv : List String) :
    (argv.length < 5 → (runMain o argv).exitCode = 1) ∧
    (∀ prog host user pw cmd rest,
      argv = prog :: host :: user :: pw :: cmd :: rest →
      (firstExc (resolveWorld o host user pw cmd) = none →
        (runMain o argv).exitCode = o.exitStatus cmd) ∧
      (firstExc (resolveWorld o host user pw cmd) = some PyExc.authException →
        (runMain o argv).exitCode = 255 ∧
        (runMain o argv).stderrText = "Authentication failed\n") ∧
      (∀ m, firstExc (resolveWorld o host user pw cmd) =
          some (PyExc.sshException m) →
        (runMain o argv).exitCode = 255 ∧
        (runMain o argv).stderrText = "SSH error: " ++ m ++ "\n") ∧
      (∀ m, firstExc (resolveWorld o host user pw cmd) =
          some (PyExc.otherException m) →
        (runMain o argv).exitCode = 255 ∧
        (runMain o argv).stderrText = "Connection error: " ++ m ++ "\n")) := by
  constructor
  · intro h
    simp [runMain, h]
  · intro prog host user pw cmd rest hargv
    subst hargv
    rw [runMain_cons]
    refine ⟨?_, ?_, ?_, ?_⟩
    · intro hnone
      exact (runBody_of_firstExc_none _ hnone).1
    · intro hsome
      have h2 := runBody_of_firstExc_some _ _ hsome
      exact ⟨h2.1, h2.2.2.1⟩
    · intro m hsome
      have h2 := runBody_of_firstExc_some _ _ hsome
      exact ⟨h2.1, h2.2.2.1⟩
    · intro m hsome
      have h2 := runBody_of_firstExc_some _ _ hsome
      exact ⟨h2.1, h2.2.2.1⟩

/-- Witness for C2: a short argv exits 1; wrong credentials print
`Authentication failed` and exit 255. -/
theorem C2_exit_code_taxonomy_witness :
    (runMain oAllOk argvShort).exitCode = 1 ∧
    (runMain oAuthFail argvFive).exitCode = 255 ∧
    (runMain oAuthFail argvFive).stderrText = "Authentication failed\n" := by
  have h1 := (C2_exit_code_taxonomy oAllOk argvShort).1 (by decide)
  have h2 := ((C2_exit_code_taxonomy oAuthFail argvFive).2 "ssh-helper.py"
    "192.168.178.3" "admin" "pw" "uname -a" [] rfl).2.1 (by decide)
  exact ⟨h1, h2.1, h2.2⟩

/-- C4, counterexample: a connected session on which the stdout decode
raises is abandoned without `close` — the claim that the session is closed
on error paths as well as the success path is false. -/
theorem C4_close_counterexample :
    Event.connectAttempt ∈ (runMain oDecodeFail argvFive).trace ∧
    Event.execCommand ∈ (runMain oDecodeFail argvFive).trace ∧
    (runMain oDecodeFail argvFive).exitCode = 255 ∧
    Event.closeSession ∉ (runMain oDecodeFail argvFive).trace := by decide

/-- C4, amended: the runner closes the session exactly on the
no-exception path; on every exception path the `except` clauses exit
without closing (there is no `finally`). -/
theorem C4_close_amended (o : SSHOracle) (prog host user pw cmd : String)
    (rest : List String) :
    (firstExc (resolveWorld o host user pw cmd) = none →
      (runMain o (prog :: host :: user :: pw :: cmd :: rest)).trace =
        successTrace ∧
      Event.closeSession ∈
        (runMain o (prog :: host :: user :: pw :: cmd :: rest)).trace) ∧
    (∀ e, firstExc (resolveWorld o host user pw cmd) = some e →
      Event.closeSession ∉
        (runMain o (prog :: host :: user :: pw :: cmd :: rest)).trace) := by
  rw [runMain_cons]
  constructor
  · intro h
    have h2 := runBody_of_firstExc_none _ h
    refine ⟨h2.2, ?_⟩
    rw [h2.2]
    decide
  · intro e h
    exact (runBody_of_firstExc_some _ _ h).2.2.2

/-- Witness for C4 amended: a fully successful run closes the session; an
authentication failure leaves it unclosed. -/
theorem C4_close_amended_witness :
    (runMain oAllOk argvFive).trace = successTrace ∧
    Event.closeSession ∈ (runMain oAllOk argvFive).trace ∧
    Event.closeSession ∉ (runMain oAuthFail argvFive).trace := by
  have h1 := (C4_close_amended oAllOk "ssh-helper.py" "192.168.178.3" "admin"
    "pw" "uname -a" []).1 (by decide)
  have h2 := (C4_close_amended oAuthFail "ssh-helper.py" "192.168.178.3"
    "admin" "pw" "uname -a" []).2 PyExc.authException (by decide)
  exact ⟨h1.1, h1.2, h2⟩

/-- C5: in every successful run both stream reads precede the exit-status
read in the operation order. -/
theorem C5_drain_order (o : SSHOracle) (prog host user pw cmd : String)
    (rest : List String)
    (h : firstExc (resolveWorld o host user pw cmd) = none) :
    (runMain o (prog :: host :: user :: pw :: cmd :: rest)).trace =
      successTrace ∧
    (runMain o (prog :: host :: user :: pw :: cmd :: rest)).trace.indexOf
        Event.readStdout <
      (runMain o (prog :: host :: user :: pw :: cmd :: rest)).trace.indexOf
        Event.readExitStatus ∧
    (runMain o (prog :: host :: user :: pw :: cmd :: rest)).trace.indexOf
        Event.readStderr <
      (runMain o (prog :: host :: user :: pw :: cmd :: rest)).trace.indexOf
        Event.readExitStatus := by
  rw [runMain_cons]
  have h2 := (runBody_of_firstExc_none _ h).2
  rw [h2]
  exact ⟨rfl, by decide, by decide⟩

/-- Witness for C5: on a fully successful concrete run the trace is the
success trace and the two stream reads precede the exit-status read. -/
theorem C5_drain_order_witness :
    (runMain oAllOk argvFive).trace = successTrace ∧
    (runMain oAllOk argvFive).trace.indexOf Event.readStdout <
      (runMain oAllOk argvFive).trace.indexOf Event.readExitStatus ∧
    (runMain oAllOk argvFive).trace.indexOf Event.readStderr <
      (runMain oAllOk argvFive).trace.indexOf Event.readExitStatus :=
  C5_drain_order oAllOk "ssh-helper.py" "192.168.178.3" "admin" "pw"
    "uname -a" [] (by decide)

/-- C6: with fewer than four arguments after the program name the runner
prints the usage line to stderr and exits 1, and its trace is empty — no
client is created and no connection is attempted. -/
theorem C6_usage_before_connect (o : SSHOracle) (argv : List String)
    (h : argv.length < 5) :
    runMain o argv =
      { exitCode := 1, stdoutText := "", stderrText := usageText,
        trace := [] } ∧
    Event.connectAttempt ∉ (runMain o argv).trace ∧
    Event.createClient ∉ (runMain o argv).trace := by
  have h1 : runMain o argv =
      { exitCode := 1, stdoutText := "", stderrText := usageText,
        trace := [] } := by
    simp [runMain, h]
  refine ⟨h1, ?_, ?_⟩ <;> rw [h1] <;> decide

/-- Witness for C6: two arguments exit 1 with the usage line and an empty
trace. -/
theorem C6_usage_before_connect_witness :
    runMain oAllOk argvShort =
      { exitCode := 1, stdoutText := "", stderrText := usageText,
        trace := [] } :=
  (C6_usage_before_connect oAllOk argvShort (by decide)).1

/-- C7: both scripts set `AutoAddPolicy` before connecting, so no
host-key verification is performed: every run is insensitive to whether
the server's host key was previously known, and under the auto-add policy
the connect outcome is exactly the network/credential outcome.  Under the
paramiko default `RejectPolicy` an unknown host key would instead raise
`SSHException`. -/
theorem C7_accept_any_hostkey :
    (∀ (o : SSHOracle) (argv : List String) (b b' : Bool),
      runMain { o with hostKeyKnown := b } argv =
        runMain { o with hostKeyKnown := b' } argv) ∧
    (∀ (b b' : Bool) (base : Except PyExc Unit) (pk : String)
        (s : RouterState),
      addKeyRun b base pk s = addKeyRun b' base pk s) ∧
    (∀ (b : Bool) (base : Except PyExc Unit),
      tryConnect HostKeyPolicy.autoAdd b base = base) ∧
    (∀ base : Except PyExc Unit,
      tryConnect HostKeyPolicy.reject false base =
        Except.error (PyExc.sshException "Server not found in known_hosts")) := by
  refine ⟨?_, ?_, ?_, ?_⟩
  · intro o argv b b'
    by_cases h : argv.length < 5
    · simp [runMain, h]
    · simp only [runMain, h, reduceIte]
      exact (runBody_hostKeyKnown (resolveWorld o (argv.getD 1 "")
          (argv.getD 2 "") (argv.getD 3 "") (argv.getD 4 "")) b).trans
        (runBody_hostKeyKnown _ b').symm
  · intro b b' base pk s
    rfl
  · intro b base
    rfl
  · intro base
    rfl

/-- C8: the runner's behaviour depends only on argv entries 1 through 4
(host, user, password, command); the program name and any additional
arguments beyond the fourth have no effect. -/
theorem C8_extra_args_ignored (o : SSHOracle)
    (prog prog' host user pw cmd : String) (rest rest' : List String) :
    runMain o (prog :: host :: user :: pw :: cmd :: rest) =
      runMain o (prog' :: host :: user :: pw :: cmd :: rest') := by
  rw [runMain_cons, runMain_cons]

/-- C9: every exception raised inside the `try` block is caught and
mapped to exit code 255 with the matching diagnostic on stderr; the
catch-all clause reports any non-paramiko exception — including a
`UnicodeDecodeError` from decoding non-UTF-8 remote output — as
`Connection error: ...`. -/
theorem C9_catch_all (o : SSHOracle) (prog host user pw cmd : String)
    (rest : List String) (e : PyExc)
    (h : firstExc (resolveWorld o host user pw cmd) = some e) :
    (runMain o (prog :: host :: user :: pw :: cmd :: rest)).exitCode = 255 ∧
    (runMain o (prog :: host :: user :: pw :: cmd :: rest)).stdoutText = "" ∧
    (runMain o (prog :: host :: user :: pw :: cmd :: rest)).stderrText =
      excMessage e ∧
    (∀ m, e = PyExc.otherException m →
      (runMain o (prog :: host :: user :: pw :: cmd :: rest)).stderrText =
        "Connection error: " ++ m ++ "\n") := by
  rw [runMain_cons]
  have h2 := runBody_of_firstExc_some _ _ h
  refine ⟨h2.1, h2.2.1, h2.2.2.1, ?_⟩
  intro m hm
  subst hm
  exact h2.2.2.1

/-- Witness for C9: a remote command that succeeds with exit status 0 but
emits non-UTF-8 stdout is reported as `Connection error: ...` with exit
code 255 and nothing relayed. -/
theorem C9_catch_all_witness :
    (runMain oDecodeFail argvFive).exitCode = 255 ∧
    (runMain oDecodeFail argvFive).stdoutText = "" ∧
    (runMain oDecodeFail argvFive).stderrText =
      "Connection error: invalid continuation byte\n" := by
  have h := C9_catch_all oDecodeFail "ssh-helper.py" "192.168.178.3" "admin"
    "pw" "uname -a" [] (PyExc.otherException "invalid continuation byte")
    (by decide)
  exact ⟨h.1, h.2.1, h.2.2.2 "invalid continuation byte" rfl⟩

/-- C3, counterexample: starting from an empty nvram value, running the
key-append twice mutates remote state beyond a single run and the second
run does not report "already present" — the guard reads
`nvram get sshd_authkeys`, which the appends never write, so the second
invocation appends again. -/
theorem C3_idempotence_counterexample :
    (addKeyBody "ssh-rsa AAAA" ((addKeyBody "ssh-rsa AAAA" rsEmpty).1)).1 ≠
      (addKeyBody "ssh-rsa AAAA" rsEmpty).1 ∧
    (addKeyBody "ssh-rsa AAAA" ((addKeyBody "ssh-rsa AAAA" rsEmpty).1)).2 ≠
      [alreadyMsg] := by decide

/-- C3, amended: the second invocation is a no-op reported as "already
present" exactly when the key is already a substring of the stripped
nvram value, which the appends never modify; when the key is absent from
nvram the second invocation takes the append branch again, reports the
success message again, and — when `/jffs/.ssh` exists and is writable —
appends to `/jffs/.ssh/authorized_keys` again, so remote state after two
invocations differs from remote state after one. -/
theorem C3_idempotence_amended (pk : String) (s : RouterState) :
    (pyIn pk.data (pyStrip s.nvramAuthkeys) = true →
      addKeyBody pk s = (s, [alreadyMsg]) ∧
      addKeyBody pk (addKeyBody pk s).1 = addKeyBody pk s) ∧
    (pyIn pk.data (pyStrip s.nvramAuthkeys) = false →
      (addKeyBody pk (addKeyBody pk s).1).2 = [addedMsg] ∧
      (s.jffsSshDirExists = true → s.jffsWritable = true →
        (addKeyBody pk (addKeyBody pk s).1).1.jffsAuthorizedKeys ≠
          (addKeyBody pk s).1.jffsAuthorizedKeys)) := by
  constructor
  · intro hyes
    have h1 := addKeyBody_skip pk s hyes
    refine ⟨h1, ?_⟩
    rw [h1]
    exact h1
  · intro hni
    have hni2 : pyIn pk.data (pyStrip (addKeyBody pk s).1.nvramAuthkeys) =
        false := by
      rw [addKeyBody_nvram]
      exact hni
    refine ⟨addKeyBody_msg pk _ hni2, ?_⟩
    intro hd hw
    have hd2 := addKeyBody_jffsDir_true pk s hd
    have hw2 : (addKeyBody pk s).1.jffsWritable = true := by
      rw [addKeyBody_jffsWritable]
      exact hw
    rw [addKeyBody_jffs_grows pk ((addKeyBody pk s).1) hni2 hd2 hw2]
    intro heq
    have hlen := congrArg List.length heq
    simp only [List.length_append, List.length_cons,
      List.length_nil] at hlen
    omega

/-- Witness for C3 amended: with the key already in nvram the second run
is a no-op reported as already present; with an empty nvram the second
run reports success again. -/
theorem C3_idempotence_amended_witness :
    addKeyBody "K" { rsEmpty with nvramAuthkeys := "K".data } =
      ({ rsEmpty with nvramAuthkeys := "K".data }, [alreadyMsg]) ∧
    (addKeyBody "K" ((addKeyBody "K" rsEmpty).1)).2 = [addedMsg] := by
  have h1 := ((C3_idempotence_amended "K"
    { rsEmpty with nvramAuthkeys := "K".data }).1 (by decide)).1
  have h2 := ((C3_idempotence_amended "K" rsEmpty).2 (by decide)).1
  exact ⟨h1, h2⟩

/-- C10: on its append branch the key-append script prints its success
message unconditionally — the remote append statuses are never read — and
when both filesystems accept writes the key lands in both
`/jffs/.ssh/authorized_keys` (twice, by the shell grouping) and
`/etc/dropbear/authorized_keys`; when every remote write fails the state
is unchanged yet the same success message is printed. -/
theorem C10_unchecked_success (pk : String) (s : RouterState)
    (hni : pyIn pk.data (pyStrip s.nvramAuthkeys) = false) :
    (addKeyBody pk s).2 = [addedMsg] ∧
    (s.jffsSshDirExists = true → s.jffsWritable = true →
      (addKeyBody pk s).1.jffsAuthorizedKeys =
        s.jffsAuthorizedKeys ++ pk.data ++ ['\n'] ++ pk.data ++ ['\n']) ∧
    (s.dropbearDirExists = true → s.dropbearWritable = true →
      (addKeyBody pk s).1.dropbearAuthorizedKeys =
        s.dropbearAuthorizedKeys ++ pk.data ++ ['\n']) ∧
    (s.jffsWritable = false → s.dropbearWritable = false →
      (addKeyBody pk s).1 = s) := by
  refine ⟨addKeyBody_msg pk s hni, ?_, ?_, ?_⟩
  · intro hd hw
    exact addKeyBody_jffs_grows pk s hni hd hw
  · intro hd hw
    rw [addKeyBody_append_eq pk s hni]
    have hdd : (jffsAppendCommand pk s).1.dropbearDirExists = true := by
      rw [(jffsAppend_dropbear pk s).2.1]
      exact hd
    have hdw : (jffsAppendCommand pk s).1.dropbearWritable = true := by
      rw [(jffsAppend_dropbear pk s).2.2]
      exact hw
    rw [dropbearAppend_writable_eq pk _ hdd hdw]
    simp [(jffsAppend_dropbear pk s).1]
  · intro hwj hwd
    rw [addKeyBody_append_eq pk s hni, jffsAppend_readonly pk s hwj]
    show (dropbearAppendCommand pk s).1 = s
    rw [dropbearAppend_readonly pk s hwd]

/-- Witness for C10: on a router with both filesystems read-only the
script changes nothing but still reports the key as added. -/
theorem C10_unchecked_success_witness :
    (addKeyBody "K" rsReadOnly).2 = [addedMsg] ∧
    (addKeyBody "K" rsReadOnly).1 = rsReadOnly := by
  have h := C10_unchecked_success "K" rsReadOnly (by decide)
  exact ⟨h.1, h.2.2.2 rfl rfl⟩
